import Mathlib

/-!
Shallow embedding of the 2D feature tracking benchmark
(src/matching2D.hpp with its implementation file, and main.cpp).

Conventions used throughout this development:

* float values of the C++ source (keypoint coordinates, keypoint sizes,
  descriptor distances, the ratio threshold 0.8) are modelled as exact
  rationals;
* the external vision library (image decoding, the concrete keypoint
  detectors, descriptor extractors and the distance evaluation between
  descriptor rows) is modelled as an oracle record (VisionLib); all
  control flow, dispatch on configuration strings, buffering, ROI
  filtering, statistics and the ratio-test loop are translated from the
  source;
* C++ exceptions become Except values, and the one place where the
  source indexes past the end of a vector (reading m[1] in the
  ratio-test loop when a knn result has fewer than two entries, which is
  undefined behaviour in C++) is modelled as an explicit
  indexOutOfBounds error;
* images and descriptor matrices are opaque to the repository code: an
  image is an identifier (Nat) and a descriptor matrix is represented by
  its row count together with the oracle distance function.
-/

/-- A detected keypoint: 2-D location and neighbourhood size (the cv
KeyPoint fields this program reads). -/
structure Keypoint where
  x : ℚ
  y : ℚ
  size : ℚ
deriving DecidableEq, Repr

/-- An axis-aligned rectangle with integer origin and extent, as cv Rect. -/
structure Rect where
  x : ℤ
  y : ℤ
  width : ℤ
  height : ℤ
deriving DecidableEq, Repr

/-- Containment test of cv Rect: left and top edges inclusive, right and
bottom edges exclusive.  (The cv implementation first converts the float
point to integer pixel coordinates; the properties proved below do not
depend on that detail.) -/
def Rect.containsPt (r : Rect) (px py : ℚ) : Bool :=
  decide ((r.x : ℚ) ≤ px) && decide (px < (r.x : ℚ) + (r.width : ℚ)) &&
  decide ((r.y : ℚ) ≤ py) && decide (py < (r.y : ℚ) + (r.height : ℚ))

/-- main.cpp: static const cv Rect kVehicleROI(535, 180, 180, 150). -/
def kVehicleROI : Rect := { x := 535, y := 180, width := 180, height := 150 }

/-- The ROI filtering step of detectAndFilterKeypoints (main.cpp): when
bFocusOnVehicle is set, erase every keypoint whose location is not
contained in kVehicleROI (the erase and remove_if idiom keeps exactly
the contained ones, in order); otherwise keep the list unchanged. -/
def filterToROI (keypoints : List Keypoint) (bFocusOnVehicle : Bool) : List Keypoint :=
  if bFocusOnVehicle then
    keypoints.filter (fun kp => kVehicleROI.containsPt kp.x kp.y)
  else keypoints

/-- numeric_limits float max, the initial value of the min-size
accumulator in logKeypointStats (FLT_MAX = (2 - 2 ^ (-23)) * 2 ^ 127). -/
def fltMax : ℚ := 2 ^ 128 - 2 ^ 104

/-- One row of keypoint_log.csv:
ImageIndex,DetectorType,NumKeypoints,MinSize,MaxSize,MeanSize. -/
structure KpRow where
  imgIndex : Nat
  detector : String
  numKeypoints : Nat
  minSize : ℚ
  maxSize : ℚ
  meanSize : ℚ
deriving DecidableEq, Repr

/-- logKeypointStats (main.cpp): fold min, max and sum of the keypoint
sizes starting from (FLT_MAX, 0, 0); divide the sum by the count when
the list is nonempty, and reset the min accumulator to 0 when it is
empty; emit one csv row unconditionally. -/
def logKeypointStats (imgIndex : Nat) (detectorType : String)
    (keypoints : List Keypoint) : KpRow :=
  let acc := keypoints.foldl
    (fun (a : ℚ × ℚ × ℚ) kp => (min a.1 kp.size, max a.2.1 kp.size, a.2.2 + kp.size))
    (fltMax, 0, 0)
  let minSz := if keypoints.isEmpty then 0 else acc.1
  let meanSz := if keypoints.isEmpty then acc.2.2 else acc.2.2 / (keypoints.length : ℚ)
  { imgIndex := imgIndex, detector := detectorType,
    numKeypoints := keypoints.length,
    minSize := minSz, maxSize := acc.2.1, meanSize := meanSz }

/-- cv DMatch: query row index, train row index and distance. -/
structure DMatch where
  queryIdx : Nat
  trainIdx : Nat
  distance : ℚ
deriving DecidableEq, Repr

/-- Exhaustive nearest-index search of the brute-force matcher over a
list of candidate train indices: the first index attaining the minimal
distance, or none when the candidate list is empty. -/
def nearestIdx (dq : Nat → ℚ) : List Nat → Option Nat
  | [] => none
  | j :: rest =>
    match nearestIdx dq rest with
    | none => some j
    | some i => if dq j ≤ dq i then some j else some i

/-- The up-to-two nearest neighbours among train indices below nB for
query row qi, sorted by distance, as the brute-force knnMatch with
k = 2 returns them (an entry has fewer than two elements when fewer
than two train descriptors exist). -/
def twoNearest (d : Nat → Nat → ℚ) (qi nB : Nat) : List DMatch :=
  match nearestIdx (d qi) (List.range nB) with
  | none => []
  | some i1 =>
    match nearestIdx (d qi) ((List.range nB).filter (fun j => decide (j ≠ i1))) with
    | none => [{ queryIdx := qi, trainIdx := i1, distance := d qi i1 }]
    | some i2 => [{ queryIdx := qi, trainIdx := i1, distance := d qi i1 },
                  { queryIdx := qi, trainIdx := i2, distance := d qi i2 }]

/-- knnMatch with k = 2 of the brute-force matcher: no entries at all
when the train set is empty, otherwise one entry per query row. -/
def knnMatch2 (d : Nat → Nat → ℚ) (nA nB : Nat) : List (List DMatch) :=
  if nB = 0 then [] else (List.range nA).map (fun qi => twoNearest d qi nB)

/-- Plain match of the brute-force matcher (the SEL_NN branch): the
single nearest neighbour per query row; empty when the train set is
empty. -/
def nnMatchAll (d : Nat → Nat → ℚ) (nA nB : Nat) : List DMatch :=
  if nB = 0 then []
  else (List.range nA).filterMap (fun qi =>
    (nearestIdx (d qi) (List.range nB)).map
      (fun i => { queryIdx := qi, trainIdx := i, distance := d qi i }))

/-- Failures of matchDescriptors: the two invalid_argument throws of the
source, plus indexOutOfBounds standing for the unchecked m[1] read of
the ratio-test loop (undefined behaviour in the C++ source). -/
inductive MatchError where
  | unknownMatcherType (s : String)
  | unknownSelectorType (s : String)
  | indexOutOfBounds
deriving DecidableEq, Repr

/-- The ratio threshold of the source: const float ratio_thresh = 0.8f. -/
def ratioThresh : ℚ := 4 / 5

/-- The SEL_KNN loop of matchDescriptors: for every knn entry m, keep
m[0] iff m[0].distance < 0.8 * m[1].distance.  The source reads m[0]
and m[1] without any bounds check; an entry with fewer than two
elements is modelled as an indexOutOfBounds error. -/
def ratioFilterLoop : List (List DMatch) → Except MatchError (List DMatch)
  | [] => .ok []
  | m :: rest =>
    match m.get? 0, m.get? 1 with
    | some m0, some m1 =>
      (ratioFilterLoop rest).map
        (fun ms => if m0.distance < ratioThresh * m1.distance then m0 :: ms else ms)
    | _, _ => .error .indexOutOfBounds

/-- isBinaryDescriptor (matching2D implementation): SIFT is the only
float descriptor kind; every other string counts as binary. -/
def isBinaryDescriptor (descriptorType : String) : Bool :=
  descriptorType != "SIFT"

/-- The two norms the matcher can select. -/
inductive NormType where
  | hamming
  | l2
deriving DecidableEq, Repr

/-- The norm picked by matchDescriptors:
normType = binary ? NORM_HAMMING : NORM_L2. -/
def selectedNorm (descriptorType : String) : NormType :=
  if isBinaryDescriptor descriptorType then NormType.hamming else NormType.l2

/-- matchDescriptors (matching2D implementation).  The two descriptor
matrices are abstracted by their row counts nA and nB plus an oracle
distance d between rows under a given norm.  MAT_BF performs exhaustive
search; MAT_FLANN builds an external approximate index (LSH for binary
norms, KD-tree otherwise) whose search behaviour is outside this
repository and is modelled here by the same exhaustive search — every
theorem below invokes the matcher with MAT_BF only. -/
def matchDescriptors (d : NormType → Nat → Nat → ℚ) (nA nB : Nat)
    (descriptorType matcherType selectorType : String) :
    Except MatchError (List DMatch) :=
  let binary := isBinaryDescriptor descriptorType
  let normType := if binary then NormType.hamming else NormType.l2
  if matcherType = "MAT_BF" ∨ matcherType = "MAT_FLANN" then
    if selectorType = "SEL_NN" then .ok (nnMatchAll (d normType) nA nB)
    else if selectorType = "SEL_KNN" then ratioFilterLoop (knnMatch2 (d normType) nA nB)
    else .error (.unknownSelectorType selectorType)
  else .error (.unknownMatcherType matcherType)

/-- The index of the nearest train row for query row qi (first index on
ties), used to state the ratio-test claim. -/
def nn1Idx (δ : Nat → Nat → ℚ) (nB qi : Nat) : Nat :=
  (nearestIdx (δ qi) (List.range nB)).getD 0

/-- The index of the second-nearest train row for query row qi. -/
def nn2Idx (δ : Nat → Nat → ℚ) (nB qi : Nat) : Nat :=
  (nearestIdx (δ qi) ((List.range nB).filter (fun j => decide (j ≠ nn1Idx δ nB qi)))).getD 0

/-- d1: distance from query row qi to its nearest train row. -/
def knnDist1 (δ : Nat → Nat → ℚ) (nB qi : Nat) : ℚ := δ qi (nn1Idx δ nB qi)

/-- d2: distance from query row qi to its second-nearest train row. -/
def knnDist2 (δ : Nat → Nat → ℚ) (nB qi : Nat) : ℚ := δ qi (nn2Idx δ nB qi)

/-- The behaviour claim C1 ascribes to ratio-test matching, stated about
a returned match list ms: every returned match pairs a query row with a
nearest train row, carries that distance, and satisfies d1 < 0.8 * d2
strictly (so no returned match has d1 >= 0.8 * d2); a query row is
matched exactly when its two nearest distances pass the test; and the
two nearest distances satisfy d1 <= d2. -/
def RatioTestSpec (δ : Nat → Nat → ℚ) (nA nB : Nat) (ms : List DMatch) : Prop :=
  (∀ m ∈ ms, m.queryIdx < nA ∧ m.trainIdx < nB ∧
     m.distance = δ m.queryIdx m.trainIdx ∧
     (∀ j < nB, δ m.queryIdx m.trainIdx ≤ δ m.queryIdx j) ∧
     knnDist1 δ nB m.queryIdx < ratioThresh * knnDist2 δ nB m.queryIdx) ∧
  (∀ qi < nA, ((∃ m ∈ ms, m.queryIdx = qi) ↔
     knnDist1 δ nB qi < ratioThresh * knnDist2 δ nB qi)) ∧
  (∀ qi < nA, knnDist1 δ nB qi ≤ knnDist2 δ nB qi)

/-- The per-entry decision of the ratio-test loop, used to describe its
output on entries of length at least two. -/
def ratioKeep (l : List DMatch) : Option DMatch :=
  match l.get? 0, l.get? 1 with
  | some a, some b => if a.distance < ratioThresh * b.distance then some a else none
  | _, _ => none

/-- A constant-zero distance oracle, used for concrete evaluations. -/
def constDist : NormType → Nat → Nat → ℚ := fun _ _ _ => 0

/-- Failures that abort one combination (the C++ exceptions caught in
the main loop). -/
inductive CombError where
  | loadFailure (path : Nat)
  | unknownDetectorType (s : String)
  | missingContribDetector (s : String)
  | unknownDescriptorType (s : String)
  | missingContribDescriptor (s : String)
  | matchFailure (e : MatchError)
deriving DecidableEq, Repr

/-- The external vision library as an oracle record: image decoding, the
concrete detector and extractor algorithms and the descriptor-row
distances are collaborators outside this repository.  compute models
extractor compute, which may prune the keypoint vector in place and
fills the descriptor matrix, represented by its row count. -/
structure VisionLib where
  loadImage : Nat → Option Nat
  hasXfeatures2d : Bool
  detect : String → Nat → List Keypoint
  compute : String → Nat → List Keypoint → List Keypoint × Nat
  dist : NormType → Nat → Nat → ℚ

/-- loadGrayscaleImage (main.cpp): imread plus grayscale conversion;
throws runtime_error when the image cannot be opened. -/
def loadGrayscaleImage (lib : VisionLib) (path : Nat) : Except CombError Nat :=
  match lib.loadImage path with
  | none => .error (.loadFailure path)
  | some img => .ok img

/-- The detector kinds detKeypoints dispatches on. -/
def knownDetectorTypes : List String :=
  ["SHITOMASI", "HARRIS", "FAST", "BRISK", "ORB", "AKAZE", "SIFT"]

/-- detKeypoints (matching2D implementation): dispatch on the detector
kind, invalid_argument for an unknown kind, runtime_error for SIFT when
the contrib module is absent; the detection itself is external. -/
def detKeypoints (lib : VisionLib) (img : Nat) (detectorType : String) :
    Except CombError (List Keypoint) :=
  if detectorType ∈ knownDetectorTypes then
    if detectorType = "SIFT" ∧ lib.hasXfeatures2d = false then
      .error (.missingContribDetector detectorType)
    else .ok (lib.detect detectorType img)
  else .error (.unknownDetectorType detectorType)

/-- The descriptor kinds descKeypoints dispatches on. -/
def knownDescriptorTypes : List String :=
  ["BRISK", "ORB", "AKAZE", "SIFT", "BRIEF", "FREAK"]

/-- The descriptor kinds that need the contrib module (xfeatures2d). -/
def contribOnlyDescriptorTypes : List String := ["SIFT", "BRIEF", "FREAK"]

/-- descKeypoints (matching2D implementation): dispatch on the
descriptor kind, invalid_argument for an unknown kind, runtime_error
for a contrib-only kind when the module is absent; the extraction
itself is the external algorithm. -/
def descKeypoints (lib : VisionLib) (img : Nat) (keypoints : List Keypoint)
    (descriptorType : String) : Except CombError (List Keypoint × Nat) :=
  if descriptorType ∈ knownDescriptorTypes then
    if descriptorType ∈ contribOnlyDescriptorTypes ∧ lib.hasXfeatures2d = false then
      .error (.missingContribDescriptor descriptorType)
    else .ok (lib.compute descriptorType img keypoints)
  else .error (.unknownDescriptorType descriptorType)

/-- detectAndFilterKeypoints (main.cpp): run the detector, then restrict
the keypoints to the vehicle ROI when bFocusOnVehicle is set. -/
def detectAndFilterKeypoints (lib : VisionLib) (img : Nat) (detectorType : String)
    (bFocusOnVehicle : Bool) : Except CombError (List Keypoint) :=
  (detKeypoints lib img detectorType).map (fun kps => filterToROI kps bFocusOnVehicle)

/-- One buffered frame (dataStructures.h DataFrame): the image, its
post-ROI keypoints, its descriptor matrix (kept as a row count) and the
matches against the previous frame. -/
structure DataFrame where
  cameraImg : Nat
  keypoints : List Keypoint := []
  descRows : Nat := 0
  kptMatches : List DMatch := []
deriving DecidableEq, Repr

instance : Inhabited DataFrame := ⟨{ cameraImg := 0 }⟩

/-- The ring-buffer push of runCombination (main.cpp): when the deque is
full, pop the front (oldest) frame, then push the new frame at the
back. -/
def pushFrame (dataBuffer : List DataFrame) (dataBufferSize : Nat)
    (frame : DataFrame) : List DataFrame :=
  (if dataBuffer.length = dataBufferSize then dataBuffer.tail else dataBuffer) ++ [frame]

/-- In-place mutation of the back frame of the deque. -/
def setBack (dataBuffer : List DataFrame) (f : DataFrame → DataFrame) :
    List DataFrame :=
  match dataBuffer.getLast? with
  | none => []
  | some b => dataBuffer.dropLast ++ [f b]

/-- One row of match_log.csv:
ImageIndex,DetectorType,DescriptorType,NumMatches. -/
structure MatchRow where
  imgIndex : Nat
  detector : String
  descriptor : String
  numMatches : Nat
deriving DecidableEq, Repr

/-- The configuration of one combination run: the per-combination
strings plus the fixed constants of main.cpp. -/
structure CombParams where
  detectorType : String
  descriptorType : String
  matcherType : String
  selectorType : String
  imgStartIndex : Nat := 0
  numImages : Nat := 10
  dataBufferSize : Nat := 2
  bFocusOnVehicle : Bool := true
deriving DecidableEq, Repr

/-- The observable outcome of one combination run: the csv rows written
so far, the final frame buffer, and the first uncaught failure when the
run aborted early. -/
structure CombOutput where
  kpRows : List KpRow := []
  matchRows : List MatchRow := []
  buffer : List DataFrame := []
  err : Option CombError := none
deriving DecidableEq, Repr

/-- The image loop of runCombination (main.cpp), processing the given
image indices in order: load, push into the ring buffer, detect and
ROI-filter, log keypoint statistics, extract descriptors (which prunes
the stored keypoints in place), and when more than one frame is
buffered, match the previous frame (index size - 2) against the back
frame and log the match count.  The first failure aborts the remaining
images; rows already appended persist. -/
def runImages (lib : VisionLib) (p : CombParams) (dataBuffer : List DataFrame)
    (kpRows : List KpRow) (matchRows : List MatchRow) :
    List Nat → CombOutput
  | [] => { kpRows := kpRows, matchRows := matchRows, buffer := dataBuffer, err := none }
  | imgIndex :: rest =>
    match loadGrayscaleImage lib (p.imgStartIndex + imgIndex) with
    | .error e =>
      { kpRows := kpRows, matchRows := matchRows, buffer := dataBuffer, err := some e }
    | .ok imgGray =>
      let buffer1 := pushFrame dataBuffer p.dataBufferSize { cameraImg := imgGray }
      match detectAndFilterKeypoints lib imgGray p.detectorType p.bFocusOnVehicle with
      | .error e =>
        { kpRows := kpRows, matchRows := matchRows, buffer := buffer1, err := some e }
      | .ok keypoints =>
        let kpRows1 := kpRows ++ [logKeypointStats imgIndex p.detectorType keypoints]
        let buffer2 := setBack buffer1 (fun fr => { fr with keypoints := keypoints })
        match descKeypoints lib imgGray keypoints p.descriptorType with
        | .error e =>
          { kpRows := kpRows1, matchRows := matchRows, buffer := buffer2, err := some e }
        | .ok kd =>
          let buffer3 := setBack buffer2
            (fun fr => { fr with keypoints := kd.1, descRows := kd.2 })
          if 1 < buffer3.length then
            let prevFrame := (buffer3.get? (buffer3.length - 2)).getD default
            let backFrame := buffer3.getLast?.getD default
            match matchDescriptors lib.dist prevFrame.descRows backFrame.descRows
                p.descriptorType p.matcherType p.selectorType with
            | .error e =>
              { kpRows := kpRows1, matchRows := matchRows, buffer := buffer3,
                err := some (.matchFailure e) }
            | .ok mtc =>
              let buffer4 := setBack buffer3 (fun fr => { fr with kptMatches := mtc })
              let matchRows1 := matchRows ++
                [{ imgIndex := imgIndex, detector := p.detectorType,
                   descriptor := p.descriptorType, numMatches := mtc.length }]
              runImages lib p buffer4 kpRows1 matchRows1 rest
          else runImages lib p buffer3 kpRows1 matchRows rest

/-- runCombination (main.cpp): a fresh deque per combination, then the
image loop over indices 0 .. numImages - 1. -/
def runCombination (lib : VisionLib) (p : CombParams) : CombOutput :=
  runImages lib p [] [] [] (List.range p.numImages)

/-- The shared sinks of the sweep: the two append-only csv logs plus the
error reports printed for failing combinations. -/
structure SweepOutput where
  kpRows : List KpRow := []
  matchRows : List MatchRow := []
  reports : List (String × String × CombError) := []
deriving DecidableEq, Repr

/-- The main loop of main.cpp over (detector, descriptor) pairs: skip
the AKAZE descriptor with any other detector; otherwise run the
combination, append its rows to the shared logs, and on failure record
the pair together with its error and keep going. -/
def runSweepAux (lib : VisionLib) (matcherType selectorType : String) :
    SweepOutput → List (String × String) → SweepOutput
  | acc, [] => acc
  | acc, (det, desc) :: rest =>
    if desc = "AKAZE" ∧ det ≠ "AKAZE" then
      runSweepAux lib matcherType selectorType acc rest
    else
      let r := runCombination lib
        { detectorType := det, descriptorType := desc,
          matcherType := matcherType, selectorType := selectorType }
      runSweepAux lib matcherType selectorType
        { kpRows := acc.kpRows ++ r.kpRows,
          matchRows := acc.matchRows ++ r.matchRows,
          reports := acc.reports ++
            (match r.err with | some e => [(det, desc, e)] | none => []) } rest

/-- The cross product enumerated by the two nested loops of main. -/
def allPairs (detectorTypes descriptorTypes : List String) : List (String × String) :=
  detectorTypes.flatMap (fun det => descriptorTypes.map (fun desc => (det, desc)))

/-- The pairing guard of main: the AKAZE descriptor is skipped unless
the detector is AKAZE too. -/
def validPair (det desc : String) : Prop := ¬(desc = "AKAZE" ∧ det ≠ "AKAZE")

instance validPairDecidable (det desc : String) : Decidable (validPair det desc) := by
  unfold validPair
  infer_instance

/-- The pairs for which the Combination Runner is actually invoked. -/
def invokedPairs (detectorTypes descriptorTypes : List String) :
    List (String × String) :=
  (allPairs detectorTypes descriptorTypes).filter (fun p => decide (validPair p.1 p.2))

/-- The full detector list of main.cpp. -/
def defaultDetectorTypes : List String :=
  ["SHITOMASI", "HARRIS", "FAST", "BRISK", "ORB", "AKAZE", "SIFT"]

/-- The full descriptor list of main.cpp. -/
def defaultDescriptorTypes : List String :=
  ["BRISK", "ORB", "AKAZE", "SIFT", "BRIEF", "FREAK"]

/-- toUpperCase (main.cpp): normalise a name to upper case. -/
def toUpperCase (s : String) : String := s.map Char.toUpper

/-- The CLI-settable configuration of main, with its defaults. -/
structure CLIConfig where
  singleDetector : String := ""
  singleDescriptor : String := ""
  matcherType : String := "MAT_BF"
  selectorType : String := "SEL_KNN"
  bSaveImages : Bool := false
deriving DecidableEq, Repr

/-- The defaults of main before argument parsing. -/
def defaultConfig : CLIConfig := {}

/-- The argument loop of main: each of the four value flags stores the
upper-cased following argument, the save flag sets a boolean, and
anything else — including a value flag with no following argument —
prints usage and returns 1, modelled as an error carrying the
offending argument. -/
def parseArgs (cfg : CLIConfig) : List String → Except String CLIConfig
  | [] => .ok cfg
  | "--detector" :: v :: rest =>
    parseArgs { cfg with singleDetector := toUpperCase v } rest
  | "--descriptor" :: v :: rest =>
    parseArgs { cfg with singleDescriptor := toUpperCase v } rest
  | "--matcher" :: v :: rest =>
    parseArgs { cfg with matcherType := toUpperCase v } rest
  | "--selector" :: v :: rest =>
    parseArgs { cfg with selectorType := toUpperCase v } rest
  | "--save" :: rest => parseArgs { cfg with bSaveImages := true } rest
  | arg :: _ => .error arg

/-- The sweep restriction of main: an empty override keeps every
supported detector kind, a nonempty one restricts the sweep to that
single kind. -/
def effectiveDetectors (cfg : CLIConfig) : List String :=
  if cfg.singleDetector = "" then defaultDetectorTypes else [cfg.singleDetector]

/-- The same restriction for descriptor kinds. -/
def effectiveDescriptors (cfg : CLIConfig) : List String :=
  if cfg.singleDescriptor = "" then defaultDescriptorTypes else [cfg.singleDescriptor]

/-- A keypoint inside the vehicle ROI, for concrete runs. -/
def kpInROI : Keypoint := { x := 600, y := 200, size := 4 }

/-- An oracle library whose image file 2 is missing and whose detector
always finds two ROI keypoints: the failure-injection scenario. -/
def injectLib : VisionLib where
  loadImage := fun path => if path = 2 then none else some path
  hasXfeatures2d := true
  detect := fun _ _ => [kpInROI, { x := 601, y := 201, size := 6 }]
  compute := fun _ _ kps => (kps, kps.length)
  dist := fun _ _ _ => 0

/-- An oracle library whose extractor breaks the alignment contract: it
reports one descriptor row more than there are keypoints. -/
def misalignedLib : VisionLib where
  loadImage := fun path => some path
  hasXfeatures2d := true
  detect := fun _ _ => [kpInROI]
  compute := fun _ _ kps => (kps, kps.length + 1)
  dist := fun _ _ _ => 0

/-- An oracle library that honours every contract and detects no
keypoints at all. -/
def emptyDetectLib : VisionLib where
  loadImage := fun path => some path
  hasXfeatures2d := true
  detect := fun _ _ => []
  compute := fun _ _ kps => (kps, kps.length)
  dist := fun _ _ _ => 0

/-- Alignment of a frame: one descriptor row per stored keypoint. -/
def frameAligned (fr : DataFrame) : Prop := fr.descRows = fr.keypoints.length

instance frameAlignedDecidable (fr : DataFrame) : Decidable (frameAligned fr) := by
  unfold frameAligned
  infer_instance

/-- A library whose extractor honours the alignment contract of the
external interface: one descriptor row per kept keypoint. -/
def computeAligned (lib : VisionLib) : Prop :=
  ∀ t img kps, (lib.compute t img kps).2 = (lib.compute t img kps).1.length

section
/- Batteries marks the arithmetic of Rat irreducible; the concrete
evaluations below need these definitions to unfold. -/
attribute [local semireducible] Rat.add Rat.mul Rat.inv Rat.sub

/-- C6: the ROI filter returns the subset of its input lying inside the
fixed rectangle (a sublist: no new elements, no duplicates introduced),
is idempotent, and is the identity when the ROI toggle is disabled. -/
theorem roiFilter_subset_idempotent_identity :
    (∀ keypoints : List Keypoint, List.Sublist (filterToROI keypoints true) keypoints) ∧
    (∀ (keypoints : List Keypoint) (kp : Keypoint),
        kp ∈ filterToROI keypoints true ↔
          kp ∈ keypoints ∧ kVehicleROI.containsPt kp.x kp.y = true) ∧
    (∀ keypoints : List Keypoint,
        filterToROI (filterToROI keypoints true) true = filterToROI keypoints true) ∧
    (∀ keypoints : List Keypoint, filterToROI keypoints false = keypoints) := by
  refine ⟨fun keypoints => ?_, fun keypoints kp => ?_, fun keypoints => ?_, fun _ => rfl⟩
  · simp only [filterToROI, if_true]
    exact List.filter_sublist keypoints
  · simp [filterToROI, List.mem_filter]
  · simp [filterToROI, List.filter_filter]

/-- C10: for an empty post-filter keypoint set the statistics row is
still produced, with count 0 and MinSize, MaxSize, MeanSize all equal
to 0 (the min accumulator is reset from FLT_MAX to 0); concretely, a
run whose detector finds nothing still writes exactly that row. -/
theorem emptyKeypointStatsRow :
    (∀ (imgIndex : Nat) (detectorType : String),
      logKeypointStats imgIndex detectorType [] =
        { imgIndex := imgIndex, detector := detectorType, numKeypoints := 0,
          minSize := 0, maxSize := 0, meanSize := 0 }) ∧
    (runCombination emptyDetectLib { detectorType := "FAST", descriptorType := "BRISK",
                                     matcherType := "MAT_BF", selectorType := "SEL_KNN",
                                     numImages := 1 }).kpRows =
      [{ imgIndex := 0, detector := "FAST", numKeypoints := 0,
         minSize := 0, maxSize := 0, meanSize := 0 }] := by
  constructor
  · intro imgIndex detectorType
    rfl
  · decide

/-- Helper: nearestIdx on a nonempty candidate list returns an index of
the list attaining the minimal distance. -/
theorem nearestIdx_spec (dq : Nat → ℚ) {l : List Nat} (hne : l ≠ []) :
    ∃ i, nearestIdx dq l = some i ∧ i ∈ l ∧ ∀ j ∈ l, dq i ≤ dq j := by
  induction l with
  | nil => exact absurd rfl hne
  | cons j rest ih =>
    by_cases hr : rest = []
    · subst hr
      exact ⟨j, by simp [nearestIdx], by simp, by simp⟩
    · obtain ⟨i, hi, himem, himin⟩ := ih hr
      by_cases hc : dq j ≤ dq i
      · refine ⟨j, ?_, by simp, ?_⟩
        · simp [nearestIdx, hi, hc]
        · intro k hk
          rcases List.mem_cons.mp hk with h1 | h2
          · simp [h1]
          · exact le_trans hc (himin k h2)
      · refine ⟨i, ?_, List.mem_cons_of_mem _ himem, ?_⟩
        · simp [nearestIdx, hi, hc]
        · intro k hk
          rcases List.mem_cons.mp hk with h1 | h2
          · subst h1; exact le_of_lt (lt_of_not_le hc)
          · exact himin k h2

/-- Helper: with at least two train rows, removing the nearest index
from the candidate range leaves a nonempty list. -/
theorem filterNeNonempty (i1 : Nat) {nB : Nat} (h : 2 ≤ nB) :
    (List.range nB).filter (fun j => decide (j ≠ i1)) ≠ [] := by
  have hj : (if i1 = 0 then 1 else 0) ∈ (List.range nB).filter (fun j => decide (j ≠ i1)) := by
    rw [List.mem_filter]
    constructor
    · rw [List.mem_range]
      split <;> omega
    · split
      · rename_i hi
        simp [hi]
      · rename_i hi
        simp only [decide_eq_true_eq]
        omega
  exact List.ne_nil_of_mem hj

/-- Helper: with at least two train rows, twoNearest returns exactly the
nearest and second-nearest matches. -/
theorem twoNearest_eq {δ : Nat → Nat → ℚ} {nB : Nat} (qi : Nat) (h : 2 ≤ nB) :
    twoNearest δ qi nB =
      [{ queryIdx := qi, trainIdx := nn1Idx δ nB qi, distance := knnDist1 δ nB qi },
       { queryIdx := qi, trainIdx := nn2Idx δ nB qi, distance := knnDist2 δ nB qi }] := by
  have h0 : List.range nB ≠ [] := by
    simp only [ne_eq, List.range_eq_nil]
    omega
  obtain ⟨i1, h1, _, _⟩ := nearestIdx_spec (δ qi) h0
  obtain ⟨i2, h2, _, _⟩ := nearestIdx_spec (δ qi) (filterNeNonempty i1 h)
  have hn1 : nn1Idx δ nB qi = i1 := by simp [nn1Idx, h1]
  have hn2 : nn2Idx δ nB qi = i2 := by
    simp only [nn2Idx, hn1, h2, Option.getD_some]
  simp only [twoNearest, h1, h2, hn1, hn2, knnDist1, knnDist2]

/-- Helper: with at least one train row, the nearest index is in range
and attains the minimal distance. -/
theorem nn1Idx_spec (δ : Nat → Nat → ℚ) (nB : Nat) (qi : Nat) (h : 1 ≤ nB) :
    nn1Idx δ nB qi < nB ∧ ∀ j < nB, δ qi (nn1Idx δ nB qi) ≤ δ qi j := by
  have h0 : List.range nB ≠ [] := by
    simp only [ne_eq, List.range_eq_nil]
    omega
  obtain ⟨i1, h1, hmem, hmin⟩ := nearestIdx_spec (δ qi) h0
  have hn1 : nn1Idx δ nB qi = i1 := by simp [nn1Idx, h1]
  rw [hn1]
  exact ⟨List.mem_range.mp hmem, fun j hj => hmin j (List.mem_range.mpr hj)⟩

/-- Helper: with at least two train rows, the second-nearest index is in
range, differs from the nearest, and d1 is at most d2. -/
theorem nn2Idx_spec (δ : Nat → Nat → ℚ) (nB : Nat) (qi : Nat) (h : 2 ≤ nB) :
    nn2Idx δ nB qi < nB ∧ nn2Idx δ nB qi ≠ nn1Idx δ nB qi ∧
      knnDist1 δ nB qi ≤ knnDist2 δ nB qi := by
  have h0 : List.range nB ≠ [] := by
    simp only [ne_eq, List.range_eq_nil]
    omega
  obtain ⟨i1, h1, _, hmin⟩ := nearestIdx_spec (δ qi) h0
  have hn1 : nn1Idx δ nB qi = i1 := by simp [nn1Idx, h1]
  obtain ⟨i2, h2, hmem2, _⟩ :=
    nearestIdx_spec (δ qi) (filterNeNonempty i1 h)
  have hn2 : nn2Idx δ nB qi = i2 := by
    simp only [nn2Idx, hn1, h2, Option.getD_some]
  rw [List.mem_filter] at hmem2
  refine ⟨?_, ?_, ?_⟩
  · rw [hn2]; exact List.mem_range.mp hmem2.1
  · rw [hn2, hn1]; simpa using hmem2.2
  · rw [knnDist1, knnDist2, hn1, hn2]
    exact hmin i2 hmem2.1

/-- Helper: on entries of length at least two, the ratio-test loop
succeeds and keeps exactly the first element of every entry that passes
the ratio test. -/
theorem ratioFilterLoop_ok :
    ∀ ls : List (List DMatch), (∀ l ∈ ls, 2 ≤ l.length) →
      ratioFilterLoop ls = .ok (ls.filterMap ratioKeep) := by
  intro ls
  induction ls with
  | nil => intro _; rfl
  | cons m rest ih =>
    intro h
    have hm := h m (by simp)
    obtain ⟨a, ha⟩ : ∃ a, m.get? 0 = some a := by
      cases m with
      | nil => simp at hm
      | cons x xs => exact ⟨x, rfl⟩
    obtain ⟨b, hb⟩ : ∃ b, m.get? 1 = some b := by
      cases m with
      | nil => simp at hm
      | cons x xs =>
        cases xs with
        | nil => simp at hm
        | cons y ys => exact ⟨y, rfl⟩
    have hrest := ih (fun l hl => h l (List.mem_cons_of_mem _ hl))
    simp only [ratioFilterLoop, ha, hb, hrest, List.filterMap_cons, ratioKeep]
    by_cases hc : a.distance < ratioThresh * b.distance <;> simp [hc, Except.map]

/-- C1: with selector SEL_KNN (the ratio test, called RATIO_TEST in the
design document) and at least two reference descriptors, the matcher
succeeds and returns, for each query row of A, a match to its nearest
neighbour in B exactly when the two nearest-neighbour distances
d1 <= d2 satisfy d1 < 0.8 * d2, discarding the row otherwise; in
particular no returned match has d1 >= 0.8 * d2. -/
theorem ratioTestMatchesSpec (d : NormType → Nat → Nat → ℚ)
    (descriptorType : String) (nA nB : Nat) (h : 2 ≤ nB) :
    ∃ ms, matchDescriptors d nA nB descriptorType "MAT_BF" "SEL_KNN" = .ok ms ∧
      RatioTestSpec (d (selectedNorm descriptorType)) nA nB ms := by
  set δ := d (selectedNorm descriptorType) with hδ
  have hB0 : ¬nB = 0 := by omega
  have hknn : knnMatch2 δ nA nB = (List.range nA).map (fun qi => twoNearest δ qi nB) := by
    simp [knnMatch2, hB0]
  have hlen : ∀ l ∈ knnMatch2 δ nA nB, 2 ≤ l.length := by
    rw [hknn]
    intro l hl
    obtain ⟨qi, _, rfl⟩ := List.mem_map.mp hl
    rw [twoNearest_eq qi h]
    simp
  have hloop := ratioFilterLoop_ok _ hlen
  have hmd : matchDescriptors d nA nB descriptorType "MAT_BF" "SEL_KNN" =
      ratioFilterLoop (knnMatch2 δ nA nB) := rfl
  have hkeep : ∀ qi, ratioKeep (twoNearest δ qi nB) =
      if knnDist1 δ nB qi < ratioThresh * knnDist2 δ nB qi
      then some { queryIdx := qi, trainIdx := nn1Idx δ nB qi, distance := knnDist1 δ nB qi }
      else none := by
    intro qi
    rw [twoNearest_eq qi h]
    rfl
  refine ⟨(List.range nA).filterMap (fun qi => ratioKeep (twoNearest δ qi nB)), ?_, ?_, ?_, ?_⟩
  · rw [hmd, hloop, hknn, List.filterMap_map]
    rfl
  · intro m hm
    obtain ⟨qi, hqi, hk⟩ := List.mem_filterMap.mp hm
    rw [hkeep qi] at hk
    by_cases hc : knnDist1 δ nB qi < ratioThresh * knnDist2 δ nB qi
    · rw [if_pos hc] at hk
      obtain rfl := (Option.some_inj.mp hk).symm
      obtain ⟨hlt, hmin⟩ := nn1Idx_spec δ nB qi (by omega)
      exact ⟨List.mem_range.mp hqi, hlt, rfl, hmin, hc⟩
    · rw [if_neg hc] at hk
      cases hk
  · intro qi hqi
    constructor
    · rintro ⟨m, hm, hq⟩
      obtain ⟨qi2, hqi2, hk⟩ := List.mem_filterMap.mp hm
      rw [hkeep qi2] at hk
      by_cases hc : knnDist1 δ nB qi2 < ratioThresh * knnDist2 δ nB qi2
      · rw [if_pos hc] at hk
        obtain rfl := (Option.some_inj.mp hk).symm
        simp only at hq
        rwa [hq] at hc
      · rw [if_neg hc] at hk
        cases hk
    · intro hc
      refine ⟨{ queryIdx := qi, trainIdx := nn1Idx δ nB qi, distance := knnDist1 δ nB qi },
        List.mem_filterMap.mpr ⟨qi, List.mem_range.mpr hqi, ?_⟩, rfl⟩
      rw [hkeep qi, if_pos hc]
  · intro qi _
    exact (nn2Idx_spec δ nB qi h).2.2

/-- C1 witness: the theorem applied at a concrete two-by-two instance. -/
theorem ratioTestMatchesSpec_witness :
    (2 ≤ 2 ∧
      ∃ ms, matchDescriptors constDist 2 2 "BRISK" "MAT_BF" "SEL_KNN" = .ok ms ∧
        RatioTestSpec (constDist (selectedNorm "BRISK")) 2 2 ms) :=
  ⟨by decide, ratioTestMatchesSpec constDist "BRISK" 2 2 (by decide)⟩

/-- C4 counterexample: UNKNOWN_KIND is not a supported descriptor kind,
yet norm selection silently picks Hamming and the matcher succeeds
instead of failing hard. -/
theorem normSelectionUnknownKindCounterexample :
    selectedNorm "UNKNOWN_KIND" = NormType.hamming ∧
    matchDescriptors constDist 1 1 "UNKNOWN_KIND" "MAT_BF" "SEL_NN" =
      .ok [{ queryIdx := 0, trainIdx := 0, distance := 0 }] := by
  constructor
  · rfl
  · rfl

/-- C4 amended: norm selection is total, deterministic and pure — SIFT
selects L2 and every other string, unknown kinds included, selects
Hamming; in particular all supported binary kinds select Hamming.  The
hard failure for an unknown kind happens only in descriptor extraction
(descKeypoints), not in norm selection. -/
theorem normSelectionAmended :
    (∀ s : String,
        selectedNorm s = if s = "SIFT" then NormType.l2 else NormType.hamming) ∧
    (∀ s ∈ ["BRISK", "ORB", "AKAZE", "BRIEF", "FREAK"],
        selectedNorm s = NormType.hamming) ∧
    selectedNorm "SIFT" = NormType.l2 ∧
    (∀ (lib : VisionLib) (img : Nat) (kps : List Keypoint) (s : String),
        s ∉ knownDescriptorTypes →
        descKeypoints lib img kps s = .error (.unknownDescriptorType s)) := by
  refine ⟨?_, ?_, rfl, ?_⟩
  · intro s
    by_cases hs : s = "SIFT" <;> simp [selectedNorm, isBinaryDescriptor, hs]
  · intro s hs
    fin_cases hs <;> rfl
  · intro lib img kps s hs
    simp [descKeypoints, hs]

/-- C4 witness: the amended theorem applied at concrete kinds. -/
theorem normSelectionAmended_witness :
    selectedNorm "ORB" = NormType.hamming ∧
    descKeypoints emptyDetectLib 0 [] "XYZ" = .error (.unknownDescriptorType "XYZ") :=
  ⟨normSelectionAmended.2.1 "ORB" (by decide),
   normSelectionAmended.2.2.2 emptyDetectLib 0 [] "XYZ" (by decide)⟩

/-- C5 counterexample: with the ratio-test selector and an empty
reference set the matcher returns an empty match list instead of
failing; with one reference descriptor it runs into the unchecked m[1]
read.  No InsufficientCandidates failure exists anywhere. -/
theorem ratioTestSmallRefCounterexample :
    matchDescriptors constDist 1 0 "BRISK" "MAT_BF" "SEL_KNN" = .ok [] ∧
    matchDescriptors constDist 1 1 "BRISK" "MAT_BF" "SEL_KNN" =
      .error .indexOutOfBounds := by
  constructor
  · rfl
  · rfl

/-- C5 amended: the matcher performs no insufficient-candidates check.
With the ratio-test selector and an empty reference set, knnMatch
yields no entries and the call returns an empty match list; with
exactly one reference descriptor and a nonempty query set, each knn
entry has a single element and the loop reads m[1] past the end —
undefined behaviour in the C++ source, modelled as the
indexOutOfBounds error. -/
theorem ratioTestSmallRefAmended (d : NormType → Nat → Nat → ℚ)
    (descriptorType : String) (nA : Nat) :
    matchDescriptors d nA 0 descriptorType "MAT_BF" "SEL_KNN" = .ok [] ∧
    (1 ≤ nA → matchDescriptors d nA 1 descriptorType "MAT_BF" "SEL_KNN" =
      .error .indexOutOfBounds) := by
  constructor
  · rfl
  · intro h
    obtain ⟨k, rfl⟩ : ∃ k, nA = k + 1 := ⟨nA - 1, by omega⟩
    have hmd : matchDescriptors d (k + 1) 1 descriptorType "MAT_BF" "SEL_KNN" =
        ratioFilterLoop (knnMatch2 (d (selectedNorm descriptorType)) (k + 1) 1) := rfl
    rw [hmd]
    have hk : knnMatch2 (d (selectedNorm descriptorType)) (k + 1) 1 =
        (List.range (k + 1)).map
          (fun qi => twoNearest (d (selectedNorm descriptorType)) qi 1) := by
      simp [knnMatch2]
    rw [hk, List.range_succ_eq_map, List.map_cons]
    rfl

/-- C5 witness: the amended theorem applied at a concrete instance. -/
theorem ratioTestSmallRefAmended_witness :
    matchDescriptors constDist 3 0 "BRISK" "MAT_BF" "SEL_KNN" = .ok [] ∧
    (1 ≤ 3 ∧ matchDescriptors constDist 3 1 "BRISK" "MAT_BF" "SEL_KNN" =
      .error .indexOutOfBounds) :=
  ⟨(ratioTestSmallRefAmended constDist "BRISK" 3).1, by decide,
   (ratioTestSmallRefAmended constDist "BRISK" 3).2 (by decide)⟩

/-- C2: the frame buffer never exceeds its capacity (a push onto a
within-capacity buffer stays within capacity, for any positive
capacity; the length is a Nat, so 0 <= len holds by type), a push onto
a full buffer evicts the oldest frame before appending, and with
capacity 2 pushing F1, F2, F3 leaves exactly [F2, F3]: the frame the
matcher reads at index size - 2 is F2, the back frame is F3, and F1 is
no longer reachable. -/
theorem frameBufferBoundedFifo :
    (∀ (dataBuffer : List DataFrame) (cap : Nat) (f : DataFrame),
        1 ≤ cap → dataBuffer.length ≤ cap →
        (pushFrame dataBuffer cap f).length ≤ cap ∧
        (dataBuffer.length = cap →
          pushFrame dataBuffer cap f = dataBuffer.tail ++ [f])) ∧
    (∀ F1 F2 F3 : DataFrame,
        pushFrame (pushFrame (pushFrame [] 2 F1) 2 F2) 2 F3 = [F2, F3] ∧
        ((pushFrame (pushFrame (pushFrame [] 2 F1) 2 F2) 2 F3).get?
            ((pushFrame (pushFrame (pushFrame [] 2 F1) 2 F2) 2 F3).length - 2)).getD
          default = F2 ∧
        (pushFrame (pushFrame (pushFrame [] 2 F1) 2 F2) 2 F3).getLast?.getD default = F3 ∧
        (F1 ≠ F2 → F1 ≠ F3 →
          F1 ∉ pushFrame (pushFrame (pushFrame [] 2 F1) 2 F2) 2 F3)) := by
  constructor
  · intro dataBuffer cap f hcap hlen
    constructor
    · by_cases h : dataBuffer.length = cap
      · simp only [pushFrame, if_pos h, List.length_append, List.length_tail,
          List.length_cons, List.length_nil]
        omega
      · simp only [pushFrame, if_neg h, List.length_append, List.length_cons,
          List.length_nil]
        omega
    · intro h
      simp only [pushFrame, if_pos h]
  · intro F1 F2 F3
    refine ⟨rfl, rfl, rfl, ?_⟩
    intro h12 h13
    show F1 ∉ ([F2, F3] : List DataFrame)
    simp [h12, h13]

/-- C2 witness: the theorem applied at a concrete buffer and frames. -/
theorem frameBufferBoundedFifo_witness :
    ((pushFrame [{ cameraImg := 7 }] 2 { cameraImg := 8 }).length ≤ 2) ∧
    (pushFrame (pushFrame (pushFrame [] 2 { cameraImg := 1 }) 2 { cameraImg := 2 }) 2
        { cameraImg := 3 } = [{ cameraImg := 2 }, { cameraImg := 3 }]) ∧
    (({ cameraImg := 1 } : DataFrame) ∉
      pushFrame (pushFrame (pushFrame [] 2 { cameraImg := 1 }) 2 { cameraImg := 2 }) 2
        { cameraImg := 3 }) :=
  ⟨(frameBufferBoundedFifo.1 [{ cameraImg := 7 }] 2 { cameraImg := 8 }
      (by decide) (by decide)).1,
   (frameBufferBoundedFifo.2 { cameraImg := 1 } { cameraImg := 2 } { cameraImg := 3 }).1,
   (frameBufferBoundedFifo.2 { cameraImg := 1 } { cameraImg := 2 }
      { cameraImg := 3 }).2.2.2 (by decide) (by decide)⟩

/-- C8: the AKAZE-descriptor pairing constraint is enforced by the
orchestrator before the Combination Runner is invoked: every pair the
runner is invoked for whose descriptor is AKAZE has detector AKAZE,
and the sweep loop behaves exactly like a loop over the filtered
valid-pairing list. -/
theorem akazePairingExclusion :
    (∀ (detectorTypes descriptorTypes : List String) (det desc : String),
        (det, desc) ∈ invokedPairs detectorTypes descriptorTypes →
        desc = "AKAZE" → det = "AKAZE") ∧
    (∀ (lib : VisionLib) (matcherType selectorType : String) (acc : SweepOutput)
        (pairs : List (String × String)),
        runSweepAux lib matcherType selectorType acc pairs =
          runSweepAux lib matcherType selectorType acc
            (pairs.filter (fun p => decide (validPair p.1 p.2)))) := by
  constructor
  · intro dts dss det desc hmem hdesc
    have hv := (List.mem_filter.mp hmem).2
    rw [decide_eq_true_eq] at hv
    unfold validPair at hv
    by_contra hne
    exact hv ⟨hdesc, hne⟩
  · intro lib m s acc pairs
    induction pairs generalizing acc with
    | nil => rfl
    | cons p rest ih =>
      obtain ⟨det, desc⟩ := p
      by_cases hv : desc = "AKAZE" ∧ det ≠ "AKAZE"
      · have hfp : decide (validPair det desc) = false :=
          decide_eq_false (not_not_intro hv)
        simp only [runSweepAux, if_pos hv, List.filter_cons, hfp]
        exact ih acc
      · have hfp : decide (validPair det desc) = true := decide_eq_true hv
        simp only [runSweepAux, if_neg hv, List.filter_cons, hfp]
        exact ih _

/-- C8 witness: the theorem applied at the full configuration lists and
at the one pair that does carry the AKAZE descriptor. -/
theorem akazePairingExclusion_witness :
    (("AKAZE", "AKAZE") ∈ invokedPairs defaultDetectorTypes defaultDescriptorTypes) ∧
    ("AKAZE" : String) = "AKAZE" :=
  ⟨by decide,
   akazePairingExclusion.1 defaultDetectorTypes defaultDescriptorTypes "AKAZE" "AKAZE"
     (by decide) rfl⟩

/-- C9: the command-line surface.  The four value flags store their
upper-cased argument (case normalisation on input); --detector and
--descriptor restrict the sweep to that single name while an omitted
override keeps every supported name; --save is off by default and set
by its flag; an unrecognised argument makes parsing fail, whereupon
main prints usage and returns 1; and the matcher accepts exactly the
two matcher kinds MAT_BF (brute force) and MAT_FLANN (the approximate
index) and the two selector kinds SEL_NN (nearest) and SEL_KNN (the
ratio test), failing with the unknown-kind errors on any other
value. -/
theorem cliSurface :
    (defaultConfig.bSaveImages = false ∧
      defaultConfig.matcherType = "MAT_BF" ∧
      defaultConfig.selectorType = "SEL_KNN" ∧
      effectiveDetectors defaultConfig = defaultDetectorTypes ∧
      effectiveDescriptors defaultConfig = defaultDescriptorTypes ∧
      parseArgs defaultConfig [] = .ok defaultConfig) ∧
    (∀ (cfg : CLIConfig) (v : String),
      parseArgs cfg ["--detector", v] = .ok { cfg with singleDetector := toUpperCase v } ∧
      parseArgs cfg ["--descriptor", v] =
        .ok { cfg with singleDescriptor := toUpperCase v } ∧
      parseArgs cfg ["--matcher", v] = .ok { cfg with matcherType := toUpperCase v } ∧
      parseArgs cfg ["--selector", v] = .ok { cfg with selectorType := toUpperCase v } ∧
      parseArgs cfg ["--save"] = .ok { cfg with bSaveImages := true }) ∧
    (∀ s : String, s ≠ "" →
      effectiveDetectors { defaultConfig with singleDetector := s } = [s] ∧
      effectiveDescriptors { defaultConfig with singleDescriptor := s } = [s]) ∧
    (∀ (cfg : CLIConfig) (a : String) (rest : List String),
      a ∉ ["--detector", "--descriptor", "--matcher", "--selector", "--save"] →
      parseArgs cfg (a :: rest) = .error a) ∧
    (∀ (d : NormType → Nat → Nat → ℚ) (nA nB : Nat) (t m s : String),
      (m ≠ "MAT_BF" → m ≠ "MAT_FLANN" →
        matchDescriptors d nA nB t m s = .error (.unknownMatcherType m)) ∧
      (s ≠ "SEL_NN" → s ≠ "SEL_KNN" →
        matchDescriptors d nA nB t "MAT_BF" s = .error (.unknownSelectorType s))) := by
  refine ⟨⟨rfl, rfl, rfl, rfl, rfl, rfl⟩, ?_, ?_, ?_, ?_⟩
  · intro cfg v
    exact ⟨rfl, rfl, rfl, rfl, rfl⟩
  · intro s hs
    constructor
    · simp [effectiveDetectors, defaultConfig, hs]
    · simp [effectiveDescriptors, defaultConfig, hs]
  · intro cfg a rest ha
    simp only [List.mem_cons, List.not_mem_nil, or_false, not_or] at ha
    obtain ⟨h1, h2, h3, h4, h5⟩ := ha
    cases rest with
    | nil =>
      rw [parseArgs.eq_def]
      split
      · rename_i heq
        cases heq
      all_goals first
        | rfl
        | (rename_i heq
           injection heq with heq1 heq2
           simp_all)
    | cons v r =>
      rw [parseArgs.eq_def]
      split
      · rename_i heq
        cases heq
      all_goals first
        | rfl
        | (rename_i heq
           injection heq with heq1 heq2
           simp_all)
  · intro d nA nB t m s
    constructor
    · intro hm1 hm2
      simp [matchDescriptors, hm1, hm2]
    · intro hs1 hs2
      simp [matchDescriptors, hs1, hs2]

/-- C9 witness: the theorem applied at concrete arguments — an unknown
flag is rejected, a detector override restricts the sweep, and unknown
matcher and selector values fail. -/
theorem cliSurface_witness :
    parseArgs defaultConfig ["--foo"] = .error "--foo" ∧
    effectiveDetectors { defaultConfig with singleDetector := "FAST" } = ["FAST"] ∧
    matchDescriptors constDist 1 1 "BRISK" "MAT_XX" "SEL_NN" =
      .error (.unknownMatcherType "MAT_XX") ∧
    matchDescriptors constDist 1 1 "BRISK" "MAT_BF" "SEL_XX" =
      .error (.unknownSelectorType "SEL_XX") :=
  ⟨cliSurface.2.2.2.1 defaultConfig "--foo" [] (by decide),
   (cliSurface.2.2.1 "FAST" (by decide)).1,
   (cliSurface.2.2.2.2 constDist 1 1 "BRISK" "MAT_XX" "SEL_NN").1 (by decide) (by decide),
   (cliSurface.2.2.2.2 constDist 1 1 "BRISK" "MAT_BF" "SEL_XX").2 (by decide) (by decide)⟩

/-- Helper: the sweep accumulator only grows by appending; the result of
a sweep from any accumulator is the accumulator followed by the result
of the sweep from the empty accumulator. -/
theorem runSweepAux_acc (lib : VisionLib) (m s : String)
    (acc : SweepOutput) (pairs : List (String × String)) :
    runSweepAux lib m s acc pairs =
      { kpRows := acc.kpRows ++ (runSweepAux lib m s {} pairs).kpRows,
        matchRows := acc.matchRows ++ (runSweepAux lib m s {} pairs).matchRows,
        reports := acc.reports ++ (runSweepAux lib m s {} pairs).reports } := by
  induction pairs generalizing acc with
  | nil =>
    cases acc
    simp [runSweepAux]
  | cons p rest ih =>
    obtain ⟨det, desc⟩ := p
    by_cases hv : desc = "AKAZE" ∧ det ≠ "AKAZE"
    · simp only [runSweepAux, if_pos hv]
      exact ih acc
    · simp only [runSweepAux, if_neg hv]
      rw [ih]
      conv_rhs => rw [ih]
      simp [List.append_assoc]

/-- C3: combination isolation.  For every valid (detector, descriptor)
pair of the sweep list, the sweep returns normally with that pair's
failure, if any, caught and reported together with the identifying
pair, and with the rows the combination wrote — including rows written
before its failure — present in the shared keypoint log; concretely,
with the load failure injected at image index 2, both combinations in
a two-combination sweep log their rows for images 0 and 1 and both
failures are reported with their pairs. -/
theorem sweepFailureIsolation :
    (∀ (lib : VisionLib) (m s : String) (pairs : List (String × String))
        (det desc : String),
        (det, desc) ∈ pairs → validPair det desc →
        ((∀ e, (runCombination lib { detectorType := det, descriptorType := desc,
                                     matcherType := m, selectorType := s }).err = some e →
            (det, desc, e) ∈ (runSweepAux lib m s {} pairs).reports) ∧
          List.Sublist
            (runCombination lib { detectorType := det, descriptorType := desc,
                                  matcherType := m, selectorType := s }).kpRows
            (runSweepAux lib m s {} pairs).kpRows)) ∧
    ((runSweepAux injectLib "MAT_BF" "SEL_KNN" {}
        [("FAST", "BRISK"), ("FAST", "ORB")]).kpRows.map
          (fun r => (r.imgIndex, r.detector, r.numKeypoints)) =
        [(0, "FAST", 2), (1, "FAST", 2), (0, "FAST", 2), (1, "FAST", 2)] ∧
      (runSweepAux injectLib "MAT_BF" "SEL_KNN" {}
        [("FAST", "BRISK"), ("FAST", "ORB")]).reports =
        [("FAST", "BRISK", .loadFailure 2), ("FAST", "ORB", .loadFailure 2)]) := by
  constructor
  · intro lib m s pairs det desc
    induction pairs with
    | nil =>
      intro hmem _
      cases hmem
    | cons p rest ih =>
      intro hmem hv
      rcases List.mem_cons.mp hmem with heq | hmemr
      · subst heq
        have hnv : ¬(desc = "AKAZE" ∧ det ≠ "AKAZE") := hv
        simp only [runSweepAux, if_neg hnv]
        rw [runSweepAux_acc]
        constructor
        · intro e he
          simp [he]
        · simp only [List.nil_append]
          exact List.sublist_append_left _ _
      · obtain ⟨d0, s0⟩ := p
        obtain ⟨ih1, ih2⟩ := ih hmemr hv
        by_cases hv0 : s0 = "AKAZE" ∧ d0 ≠ "AKAZE"
        · simp only [runSweepAux, if_pos hv0]
          exact ⟨ih1, ih2⟩
        · simp only [runSweepAux, if_neg hv0]
          rw [runSweepAux_acc]
          constructor
          · intro e he
            exact List.mem_append_right _ (ih1 e he)
          · exact ih2.trans (List.sublist_append_right _ _)
  · constructor
    · decide
    · decide

/-- C3 witness: the theorem applied at the failure-injection library and
the concrete two-combination sweep. -/
theorem sweepFailureIsolation_witness :
    (("FAST", "BRISK") ∈ [("FAST", "BRISK"), ("FAST", "ORB")] ∧
      validPair "FAST" "BRISK") ∧
    List.Sublist
      (runCombination injectLib { detectorType := "FAST", descriptorType := "BRISK",
                                  matcherType := "MAT_BF", selectorType := "SEL_KNN" }).kpRows
      (runSweepAux injectLib "MAT_BF" "SEL_KNN" {}
        [("FAST", "BRISK"), ("FAST", "ORB")]).kpRows :=
  ⟨⟨by decide, by decide⟩,
   (sweepFailureIsolation.1 injectLib "MAT_BF" "SEL_KNN"
      [("FAST", "BRISK"), ("FAST", "ORB")] "FAST" "BRISK" (by decide) (by decide)).2⟩

/-- C7 counterexample: with an extractor that reports one descriptor row
too many, the Combination Runner completes with no error, still
performs a matching call, and leaves frames whose descriptor count
differs from their keypoint count — the index-alignment violation is
neither checked nor detected. -/
theorem alignmentNotCheckedCounterexample :
    (runCombination misalignedLib { detectorType := "FAST", descriptorType := "BRISK",
                                    matcherType := "MAT_BF", selectorType := "SEL_NN",
                                    numImages := 2 }).err = none ∧
    (runCombination misalignedLib { detectorType := "FAST", descriptorType := "BRISK",
                                    matcherType := "MAT_BF", selectorType := "SEL_NN",
                                    numImages := 2 }).matchRows.length = 1 ∧
    ¬frameAligned ((runCombination misalignedLib
        { detectorType := "FAST", descriptorType := "BRISK",
          matcherType := "MAT_BF", selectorType := "SEL_NN",
          numImages := 2 }).buffer.headD default) := by
  refine ⟨by decide, by decide, by decide⟩

/-- Helper: mutating the back of a deque that ends in a known element
rewrites exactly that element. -/
theorem setBack_append (front : List DataFrame) (x : DataFrame)
    (f : DataFrame → DataFrame) :
    setBack (front ++ [x]) f = front ++ [f x] := by
  simp [setBack, List.getLast?_concat, List.dropLast_concat]

/-- Helper: the two back mutations after a push rewrite the pushed
frame. -/
theorem setBack_setBack_pushFrame (buffer : List DataFrame) (cap : Nat)
    (x : DataFrame) (f g : DataFrame → DataFrame) :
    setBack (setBack (pushFrame buffer cap x) f) g =
      (if buffer.length = cap then buffer.tail else buffer) ++ [g (f x)] := by
  rw [pushFrame, setBack_append, setBack_append]

/-- Helper: the surviving front of a push is made of old buffer
elements. -/
theorem mem_ifFront {buffer : List DataFrame} {cap : Nat} {fr : DataFrame}
    (h : fr ∈ (if buffer.length = cap then buffer.tail else buffer)) :
    fr ∈ buffer := by
  split at h
  · exact List.mem_of_mem_tail h
  · exact h

/-- Helper: a successful descriptor extraction returns exactly the
output of the external extractor. -/
theorem descKeypoints_ok {lib : VisionLib} {img : Nat} {kps : List Keypoint}
    {t : String} {kd : List Keypoint × Nat}
    (h : descKeypoints lib img kps t = .ok kd) : kd = lib.compute t img kps := by
  unfold descKeypoints at h
  split at h
  · split at h
    · cases h
    · injection h with h
      exact h.symm
  · cases h

/-- Helper: an update that does not touch the keypoints or the
descriptor count preserves alignment, and mutating the last element of
a deque of aligned frames by such an update keeps every frame
aligned. -/
theorem aligned_setBack_last {front : List DataFrame} {x : DataFrame}
    (hfront : ∀ fr ∈ front, frameAligned fr) (hx : frameAligned x)
    (f : DataFrame → DataFrame) (hf : ∀ y, frameAligned y → frameAligned (f y)) :
    ∀ fr ∈ setBack (front ++ [x]) f, frameAligned fr := by
  rw [setBack_append]
  intro fr hfr
  rcases List.mem_append.mp hfr with h | h
  · exact hfront fr h
  · rw [List.mem_singleton] at h
    subst h
    exact hf x hx

/-- Helper: with an extractor that honours the alignment contract, the
image loop keeps every buffered frame aligned on every run that
completes without error. -/
theorem runImages_aligned (lib : VisionLib) (p : CombParams)
    (hlib : computeAligned lib) :
    ∀ (idxs : List Nat) (buffer : List DataFrame) (kpRows : List KpRow)
      (matchRows : List MatchRow),
      (∀ fr ∈ buffer, frameAligned fr) →
      (runImages lib p buffer kpRows matchRows idxs).err = none →
      ∀ fr ∈ (runImages lib p buffer kpRows matchRows idxs).buffer, frameAligned fr := by
  intro idxs
  induction idxs with
  | nil =>
    intro buffer kpRows matchRows hbuf _
    simpa [runImages] using hbuf
  | cons imgIndex rest ih =>
    intro buffer kpRows matchRows hbuf
    simp only [runImages]
    cases hload : loadGrayscaleImage lib (p.imgStartIndex + imgIndex) with
    | error e =>
      intro herr
      exact absurd herr (by simp)
    | ok imgGray =>
      dsimp only
      cases hdet : detectAndFilterKeypoints lib imgGray p.detectorType p.bFocusOnVehicle with
      | error e =>
        intro herr
        exact absurd herr (by simp)
      | ok keypoints =>
        dsimp only
        cases hdesc : descKeypoints lib imgGray keypoints p.descriptorType with
        | error e =>
          intro herr
          exact absurd herr (by simp)
        | ok kd =>
          dsimp only
          rw [setBack_setBack_pushFrame]
          have hx : kd.2 = kd.1.length := by
            rw [descKeypoints_ok hdesc]
            exact hlib p.descriptorType imgGray keypoints
          generalize hF : (if buffer.length = p.dataBufferSize
              then buffer.tail else buffer) = front
          have hfront : ∀ fr ∈ front, frameAligned fr := by
            intro fr h
            rw [← hF] at h
            exact hbuf fr (mem_ifFront h)
          split
          · split
            · intro herr
              exact absurd herr (by simp)
            · intro herr
              refine ih _ _ _ (aligned_setBack_last hfront ?_ _ ?_) herr
              · exact hx
              · intro y hy
                exact hy
          · intro herr
            refine ih _ _ _ ?_ herr
            intro fr hfr
            rcases List.mem_append.mp hfr with h | h
            · exact hfront fr h
            · rw [List.mem_singleton] at h
              subst h
              exact hx

/-- C7 amended: the Combination Runner performs no index-alignment check
of its own and silently tolerates a misaligned extractor (see the
counterexample); however, whenever the external extractor honours its
contract of one descriptor row per kept keypoint, every frame of a run
that completes without error satisfies
len(descriptors) = len(keypoints). -/
theorem alignmentFromExtractorContract (lib : VisionLib) (p : CombParams)
    (hlib : computeAligned lib)
    (hok : (runCombination lib p).err = none) :
    ∀ fr ∈ (runCombination lib p).buffer, frameAligned fr :=
  runImages_aligned lib p hlib (List.range p.numImages) [] [] [] (by simp) hok

/-- C7 witness: the amended theorem applied at a concrete
contract-honouring library and run. -/
theorem alignmentFromExtractorContract_witness :
    computeAligned emptyDetectLib ∧
    (runCombination emptyDetectLib { detectorType := "FAST", descriptorType := "BRISK",
                                     matcherType := "MAT_BF", selectorType := "SEL_KNN",
                                     numImages := 2 }).err = none ∧
    frameAligned ((runCombination emptyDetectLib
        { detectorType := "FAST", descriptorType := "BRISK",
          matcherType := "MAT_BF", selectorType := "SEL_KNN",
          numImages := 2 }).buffer.headD default) :=
  ⟨fun _ _ _ => rfl, by decide,
   alignmentFromExtractorContract emptyDetectLib
     { detectorType := "FAST", descriptorType := "BRISK",
       matcherType := "MAT_BF", selectorType := "SEL_KNN", numImages := 2 }
     (fun _ _ _ => rfl) (by decide) _ (by decide)⟩

end
